import Mathlib

/-!
Shallow embedding of the home-assistant adapter sources under
`homeassistant/components/` (totalconnect, heos, rachio, tesla, deconz,
huawei_lte, geonetnz_quakes, zwave, fan), together with theorems settling
the claims about them.  Each definition mirrors one Python function or
method; framework/vendor constants that live outside this repository are
embedded as distinct tokens (inductive constructors) or as their documented
string values.
-/

namespace HomeAssistant

/-- Alarm state constants from `homeassistant.const`; the adapters only need
them as distinct tokens, so they are embedded as an inductive type (one
constructor per `STATE_ALARM_*` constant). -/
inductive AlarmState
  | disarmed
  | armedHome
  | armedNight
  | armedAway
  | armedCustomBypass
  | arming
  | disarming
  | triggered
deriving DecidableEq, Repr

/-- Armed status codes exposed by the TotalConnect client SDK
(`self._client.DISARMED`, ...).  `unknownCode n` stands for any vendor code
different from all the named constants. -/
inductive TCStatus
  | DISARMED
  | DISARMED_BYPASS
  | ARMED_STAY
  | ARMED_STAY_INSTANT
  | ARMED_STAY_INSTANT_BYPASS
  | ARMED_STAY_NIGHT
  | ARMED_AWAY
  | ARMED_AWAY_BYPASS
  | ARMED_AWAY_INSTANT
  | ARMED_AWAY_INSTANT_BYPASS
  | ARMED_CUSTOM_BYPASS
  | ARMING
  | DISARMING
  | ALARMING
  | ALARMING_FIRE_SMOKE
  | ALARMING_CARBON_MONOXIDE
  | unknownCode (code : ℕ)
deriving DecidableEq, Repr

/-- Result of `TotalConnectAlarm.update` (totalconnect/alarm_control_panel.py):
the new `_state` and the `triggered_source` entry of the attribute dict.  The
other attribute entries (`location_name`, `ac_loss`, ...) are copied verbatim
from the client and carry no logic. -/
structure TCUpdateResult where
  state : Option AlarmState
  triggeredSource : Option String
deriving DecidableEq, Repr

/-- `TotalConnectAlarm.update` (totalconnect/alarm_control_panel.py lines
63-117): the `if/elif` chain on the armed status.  The final `else` branch
logs the unknown code and sets the state to `None`. -/
def TotalConnectAlarm.update : TCStatus → TCUpdateResult
  | .DISARMED => ⟨some .disarmed, none⟩
  | .DISARMED_BYPASS => ⟨some .disarmed, none⟩
  | .ARMED_STAY => ⟨some .armedHome, none⟩
  | .ARMED_STAY_INSTANT => ⟨some .armedHome, none⟩
  | .ARMED_STAY_INSTANT_BYPASS => ⟨some .armedHome, none⟩
  | .ARMED_STAY_NIGHT => ⟨some .armedNight, none⟩
  | .ARMED_AWAY => ⟨some .armedAway, none⟩
  | .ARMED_AWAY_BYPASS => ⟨some .armedAway, none⟩
  | .ARMED_AWAY_INSTANT => ⟨some .armedAway, none⟩
  | .ARMED_AWAY_INSTANT_BYPASS => ⟨some .armedAway, none⟩
  | .ARMED_CUSTOM_BYPASS => ⟨some .armedCustomBypass, none⟩
  | .ARMING => ⟨some .arming, none⟩
  | .DISARMING => ⟨some .disarming, none⟩
  | .ALARMING => ⟨some .triggered, some "Police/Medical"⟩
  | .ALARMING_FIRE_SMOKE => ⟨some .triggered, some "Fire/Smoke"⟩
  | .ALARMING_CARBON_MONOXIDE => ⟨some .triggered, some "Carbon Monoxide"⟩
  | .unknownCode _ => ⟨none, none⟩

/-- Play state constants of the pyheos SDK (`pyheos.const.PLAY_STATE_*`);
`other s` stands for any vendor play state outside the three named ones. -/
inductive PlayState
  | play
  | stop
  | pause
  | other (s : String)
deriving DecidableEq, Repr

def STATE_PLAYING : String := "playing"

def STATE_IDLE : String := "idle"

def STATE_PAUSED : String := "paused"

/-- The `_play_state_to_state` dict built in `HeosMediaPlayer.__init__`
(heos/media_player.py lines 69-73), as a partial lookup: `none` means the
key is absent from the dict. -/
def play_state_to_state : PlayState → Option String
  | .play => some STATE_PLAYING
  | .stop => some STATE_IDLE
  | .pause => some STATE_PAUSED
  | .other _ => none

/-- Python exception tokens used by the embedding of fallible code. -/
inductive PyError
  | keyError
deriving DecidableEq, Repr

/-- `HeosMediaPlayer.state` (heos/media_player.py lines 319-322):
`self._play_state_to_state[self._player.state]`.  A Python dict subscript
raises `KeyError` when the key is absent, embedded as `Except.error`. -/
def HeosMediaPlayer.state (p : PlayState) : Except PyError String :=
  match play_state_to_state p with
  | some s => Except.ok s
  | none => Except.error PyError.keyError

/-- Modelled from the spec: the `STATUS_ONLINE` constant of the rachio
integration package, whose `__init__.py` is not part of this excerpt; only
its distinctness from `STATUS_OFFLINE` matters to the adapter code. -/
def STATUS_ONLINE : String := "ONLINE"

/-- Modelled from the spec: the `STATUS_OFFLINE` constant of the rachio
integration package (see `STATUS_ONLINE`). -/
def STATUS_OFFLINE : String := "OFFLINE"

/-- `RachioControllerOnlineBinarySensor._poll_update`
(rachio/binary_sensor.py lines 111-122) applied to the already-fetched
`data[KEY_STATUS]` value: two comparisons, and on neither matching, a
warning is logged and the function falls off the end, i.e. Python returns
`None`. -/
def RachioControllerOnlineBinarySensor.poll_update (status : String) : Option Bool :=
  if status = STATUS_ONLINE then some true
  else if status = STATUS_OFFLINE then some false
  else none

/-- Exceptions the body of a HEOS command method can raise: the three vendor
SDK error types named in `log_command_error`'s `except` clause
(`pyheos.CommandError`, `asyncio.TimeoutError`, `ConnectionError`), plus any
other Python exception. -/
inductive HeosRaised
  | commandError
  | timeoutError
  | connectionError
  | otherException (s : String)
deriving DecidableEq, Repr

/-- The wrapper produced by `log_command_error` (heos/media_player.py lines
44-55): it awaits the wrapped command body and catches exactly
`(CommandError, asyncio.TimeoutError, ConnectionError)`, logging the error;
the embedding maps the body's outcome to the wrapper's outcome. -/
def log_command_error (body : Except HeosRaised Unit) : Except HeosRaised Unit :=
  match body with
  | Except.error HeosRaised.commandError => Except.ok ()
  | Except.error HeosRaised.timeoutError => Except.ok ()
  | Except.error HeosRaised.connectionError => Except.ok ()
  | r => r

/-- Exceptions a teslajsonpy vendor call can raise. -/
inductive TeslaRaised
  | vendorException (s : String)
deriving DecidableEq, Repr

/-- `TeslaLock.async_lock` (tesla/lock.py lines 29-32): a debug log followed
by `await self.tesla_device.lock()` with no exception handler, so the
vendor call's outcome is the method's outcome. -/
def TeslaLock.async_lock (lockCall : Except TeslaRaised Unit) : Except TeslaRaised Unit :=
  lockCall

/-- `TeslaLock.async_unlock` (tesla/lock.py lines 34-37): same shape as
`async_lock`, around `await self.tesla_device.unlock()`. -/
def TeslaLock.async_unlock (unlockCall : Except TeslaRaised Unit) : Except TeslaRaised Unit :=
  unlockCall

/-- Exceptions a total_connect_client vendor call can raise. -/
inductive TCRaised
  | vendorException (s : String)
deriving DecidableEq, Repr

/-- `TotalConnectAlarm.alarm_disarm` (totalconnect/alarm_control_panel.py
lines 119-121): the bare vendor call `self._client.disarm(self._name)` with
no exception handler. -/
def TotalConnectAlarm.alarm_disarm (disarmCall : Except TCRaised Unit) : Except TCRaised Unit :=
  disarmCall

/-- `TotalConnectAlarm.alarm_arm_home` (totalconnect/alarm_control_panel.py
lines 123-125): the bare vendor call `self._client.arm_stay(self._name)`
with no exception handler. -/
def TotalConnectAlarm.alarm_arm_home (armCall : Except TCRaised Unit) : Except TCRaised Unit :=
  armCall

/-- Action taken by `ZwaveDimmer.value_changed` besides updating the
`_refreshing` flag: either fall through to `super().value_changed()`, or
construct and start a `threading.Timer` (a new thread) and return. -/
inductive RefreshAction
  | callSuperValueChanged
  | startTimerThread
deriving DecidableEq, Repr

/-- `ZwaveDimmer.value_changed` (zwave/light.py lines 170-188) as a function
of the `_refresh_value` configuration flag and the `_refreshing` flag:
returns the new `_refreshing` flag and the action taken.  In the
`startTimerThread` branch the code cancels any live timer, then runs
`self._timer = Timer(self._delay, _refresh_value); self._timer.start()`
where `Timer` is `threading.Timer`. -/
def ZwaveDimmer.value_changed (refreshValue refreshing : Bool) : Bool × RefreshAction :=
  if refreshValue then
    if refreshing then (false, RefreshAction.callSuperValueChanged)
    else (refreshing, RefreshAction.startTimerThread)
  else (refreshing, RefreshAction.callSuperValueChanged)

/-- Local fields of `HuaweiLteSensor` touched by `async_update`
(huawei_lte/sensor.py): `_state`, `_unit` and `_available`.  State and unit
values are embedded as strings (their concrete Python type is irrelevant to
the claims). -/
structure HuaweiSensorState where
  state : Option String
  unit : Option String
  available : Bool
deriving DecidableEq, Repr

/-- `HuaweiLteSensor.async_update` (huawei_lte/sensor.py lines 267-281):
`dataValue` is the result of the `self.router.data[self.key][self.item]`
lookup (`none` embeds the `KeyError` case, which is caught, logged at debug
level, marks the entity unavailable and returns early); `formatter` is the
meta formatter or `format_default`, returning the new state and unit. -/
def HuaweiLteSensor.async_update (s : HuaweiSensorState) (dataValue : Option String)
    (formatter : String → Option String × Option String) : HuaweiSensorState :=
  match dataValue with
  | none => { s with available := false }
  | some v =>
    let fv := formatter v
    { state := fv.1, unit := fv.2, available := true }

/-- A geo_json_events feed entry as consumed by
`GeonetnzQuakesEvent._update_from_feed` (geonetnz_quakes/geo_location.py):
one field per attribute read from the entry. -/
structure FeedEntry where
  title : Option String
  distance_to_home : ℚ
  latitude : ℚ
  longitude : ℚ
  attribution : Option String
  depth : ℚ
  locality : Option String
  magnitude : ℚ
  mmi : ℚ
  quality : Option String
  time : ℕ
deriving DecidableEq, Repr

/-- Internal fields of `GeonetnzQuakesEvent` set in `__init__` and updated by
`_update_from_feed` (geonetnz_quakes/geo_location.py). -/
structure GeonetnzQuakesEventState where
  title : Option String
  distance : Option ℚ
  latitude : Option ℚ
  longitude : Option ℚ
  attribution : Option String
  depth : Option ℚ
  locality : Option String
  magnitude : Option ℚ
  mmi : Option ℚ
  quality : Option String
  time : Option ℕ
deriving DecidableEq, Repr

/-- `GeonetnzQuakesEvent._update_from_feed` (geonetnz_quakes/geo_location.py
lines 114-132): copies every field from the feed entry; when the configured
unit system is imperial, the distance is converted through
`IMPERIAL_SYSTEM.length` (an out-of-scope framework helper, embedded as the
`milesOfKm` parameter). -/
def GeonetnzQuakesEvent.update_from_feed (isImperial : Bool) (milesOfKm : ℚ → ℚ)
    (e : FeedEntry) : GeonetnzQuakesEventState :=
  { title := e.title
    distance := some (if isImperial then milesOfKm e.distance_to_home else e.distance_to_home)
    latitude := some e.latitude
    longitude := some e.longitude
    attribution := e.attribution
    depth := some e.depth
    locality := e.locality
    magnitude := some e.magnitude
    mmi := some e.mmi
    quality := e.quality
    time := some e.time }

/-- `GeonetnzQuakesEvent.async_update` (geonetnz_quakes/geo_location.py lines
107-112): `feedEntry` is the result of
`self._feed_manager.get_entry(self._external_id)` (`none` when the manager
has no entry for the external id); the body is
`if feed_entry: self._update_from_feed(feed_entry)`. -/
def GeonetnzQuakesEvent.async_update (isImperial : Bool) (milesOfKm : ℚ → ℚ)
    (s : GeonetnzQuakesEventState) (feedEntry : Option FeedEntry) : GeonetnzQuakesEventState :=
  match feedEntry with
  | none => s
  | some e => GeonetnzQuakesEvent.update_from_feed isImperial milesOfKm e

def STATE_ON : String := "on"

def STATE_OFF : String := "off"

/-- Python `round(a / b)` for naturals `a b` with `b > 0`, as exact natural
arithmetic.  Python rounds half to even, but for the arguments produced by
`brightness_state` (`a = data * 255`, `b = 99`) the exact value is never a
half-integer (`85 * data / 33` would have to be, which forces `170 * data`
odd), so round-half-up agrees with Python; agreement with the float
evaluation was checked exhaustively on the device range `data ≤ 255`. -/
def pyRoundDiv (a b : ℕ) : ℕ := (2 * a + b) / (2 * b)

/-- `brightness_state` (zwave/light.py lines 98-102):
`if value.data > 0: return round((value.data / 99) * 255), STATE_ON` else
`return 0, STATE_OFF`.  The float expression `round((data / 99) * 255)`
equals `pyRoundDiv (data * 255) 99` on the whole device range. -/
def brightness_state (data : ℕ) : ℕ × String :=
  if data > 0 then (pyRoundDiv (data * 255) 99, STATE_ON) else (0, STATE_OFF)

/-- `byte_to_zwave_brightness` (zwave/light.py lines 105-112):
`if value > 0: return max(1, int((value / 255) * 99))` else `return 0`.  The
float expression `int((value / 255) * 99)` equals the exact
`value * 99 / 255` (natural floor division) on the byte range `value ≤ 255`
(checked exhaustively). -/
def byte_to_zwave_brightness (value : ℕ) : ℕ :=
  if value > 0 then max 1 (value * 99 / 255) else 0

/-- Effect of `ZwaveDimmer._set_duration` on the Z-Wave `dimming_duration`
value: either nothing is written (dimming duration unsupported) or one byte
is written. -/
inductive DimmingDurationWrite
  | noWrite
  | write (data : ℕ)
deriving DecidableEq, Repr

/-- `ZwaveDimmer._set_duration` (zwave/light.py lines 205-234).
`hasDimmingDuration` embeds `self.values.dimming_duration is not None`;
`transition` embeds the optional `ATTR_TRANSITION` service argument, as an
exact rational (service transitions are non-negative numbers; for those,
Python `int()` truncation coincides with the floor used here). -/
def ZwaveDimmer.set_duration (hasDimmingDuration : Bool) (transition : Option ℚ) :
    DimmingDurationWrite :=
  if hasDimmingDuration = false then DimmingDurationWrite.noWrite
  else
    match transition with
    | none => DimmingDurationWrite.write 0xFF
    | some t =>
      if t ≤ 127 then DimmingDurationWrite.write ⌊t⌋.toNat
      else if t > 7620 then DimmingDurationWrite.write 0xFE
      else DimmingDurationWrite.write (⌊t / 60⌋.toNat + 0x7F)

def SPEED_OFF : String := "off"

/-- A Python string object as received by a `FanEntity` command method: its
text together with whether it is the very object bound to the module
constant `SPEED_OFF`.  The source tests `speed is SPEED_OFF` — CPython
object identity, not text equality — so the embedding must distinguish the
interned constant from an equal-but-distinct `"off"` string (e.g. one
decoded from a JSON/YAML service call, which `cv.string` does not coerce to
the constant). -/
structure PyStrRef where
  value : String
  isSpeedOffConstant : Bool
deriving DecidableEq, Repr

/-- The module constant object `SPEED_OFF` itself. -/
def SPEED_OFF_ref : PyStrRef := ⟨SPEED_OFF, true⟩

/-- What a `FanEntity` base-class command method does with the request:
delegate to `async_turn_off`, or schedule the subclass device call
(`set_speed` / `turn_on`) via `hass.async_add_job`, forwarding the received
speed object. -/
inductive FanEntityCall
  | asyncTurnOff
  | addJobSetSpeed (speed : PyStrRef)
  | addJobTurnOn (speed : Option PyStrRef)
deriving DecidableEq, Repr

/-- `FanEntity.async_set_speed` (fan/__init__.py lines 130-137):
`if speed is SPEED_OFF: return self.async_turn_off()` else schedule
`self.set_speed(speed)`.  The identity test is embedded via the
`isSpeedOffConstant` tag of the argument object. -/
def FanEntity.async_set_speed (speed : PyStrRef) : FanEntityCall :=
  if speed.isSpeedOffConstant then FanEntityCall.asyncTurnOff
  else FanEntityCall.addJobSetSpeed speed

/-- `FanEntity.async_turn_on` (fan/__init__.py lines 155-163):
`if speed is SPEED_OFF: return self.async_turn_off()` else schedule
`self.turn_on(speed, ...)`; the speed argument defaults to `None`, which is
never the `SPEED_OFF` object. -/
def FanEntity.async_turn_on (speed : Option PyStrRef) : FanEntityCall :=
  match speed with
  | some s =>
    if s.isSpeedOffConstant then FanEntityCall.asyncTurnOff
    else FanEntityCall.addJobTurnOn (some s)
  | none => FanEntityCall.addJobTurnOn none

/-- A pydeconz sensor as seen by `async_add_sensor` (deconz/sensor.py):
`id` is the Python object identity of the sensor, the booleans embed the
type tests of the `if/elif` chain, `battery` is the `battery` attribute
(absent or a percentage) and `serial` is the device serial the
out-of-scope `DeconzDevice.serial` property derives from the device unique
id (sensors of one physical device share it). -/
structure DeconzSensor where
  id : ℕ
  isSwitchType : Bool
  isThermostatType : Bool
  isCLIP : Bool
  binary : Bool
  battery : Option ℕ
  serial : String
deriving DecidableEq, Repr

/-- Python truthiness of the optional numeric `battery` attribute, as tested
by `if sensor.battery:`. -/
def pyTruthy : Option ℕ → Bool
  | none => false
  | some b => b ≠ 0

/-- `DeconzBattery.unique_id` (deconz/sensor.py): `f"{self.serial}-battery"`. -/
def DeconzBattery.unique_id (s : DeconzSensor) : String := s.serial ++ "-battery"

/-- Mutable state threaded through `async_add_sensor` (deconz/sensor.py):
the `batteries` set of unique ids, the handler's tracker set (as the list of
tracked sensor ids; each `create_tracker` call makes a distinct tracker
object, so duplicates are possible), and the entities handed to
`async_add_entities`, split by kind and kept in creation order. -/
structure DeconzPlatformState where
  batteries : List String
  trackers : List ℕ
  events : List ℕ
  sensorEntities : List ℕ
  batteryEntities : List String
deriving DecidableEq, Repr

/-- One iteration of the `for sensor in sensors` loop of `async_add_sensor`
(deconz/sensor.py lines 34-71): the `if/elif` chain creating a
`DeconzEvent` or `DeconzSensor` for new sensors, then the battery block —
`if sensor.battery:` create a `DeconzBattery`, and unless its unique id is
already in `batteries`, record the id, append the entity and remove the
sensor's tracker (`DeconzBatteryHandler.remove_tracker` closes and drops the
first tracker whose sensor matches); `else` create a new tracker for the
sensor (`DeconzBatteryHandler.create_tracker`). -/
def async_add_one_sensor (allowClip : Bool) (st : DeconzPlatformState)
    (s : DeconzSensor) (new : Bool) : DeconzPlatformState :=
  let st1 :=
    if new && s.isSwitchType then
      if allowClip || !s.isCLIP then { st with events := st.events ++ [s.id] } else st
    else if new && !s.binary && !s.isThermostatType then
      { st with sensorEntities := st.sensorEntities ++ [s.id] }
    else st
  if pyTruthy s.battery then
    let uid := DeconzBattery.unique_id s
    if uid ∉ st1.batteries then
      { st1 with
        batteries := uid :: st1.batteries
        batteryEntities := st1.batteryEntities ++ [uid]
        trackers := st1.trackers.erase s.id }
    else st1
  else { st1 with trackers := st1.trackers ++ [s.id] }

/-- `async_add_sensor` (deconz/sensor.py lines 34-71) over a list of
sensors: the loop body folded over the list. -/
def async_add_sensor (allowClip : Bool) (st : DeconzPlatformState)
    (sensors : List DeconzSensor) (new : Bool) : DeconzPlatformState :=
  sensors.foldl (fun acc s => async_add_one_sensor allowClip acc s new) st

/-- `DeconzSensorStateTracker.async_update_callback` (deconz/sensor.py lines
205-214): when `"battery"` is among the sensor's changed keys, dispatch the
new-sensor signal with `[self.sensor]` and `new=False`, which re-enters
`async_add_sensor`. -/
def DeconzSensorStateTracker.async_update_callback (allowClip : Bool)
    (st : DeconzPlatformState) (s : DeconzSensor) (batteryChanged : Bool) :
    DeconzPlatformState :=
  if batteryChanged then async_add_sensor allowClip st [s] false else st

/-- C5: `TotalConnectAlarm.update` is a pure lookup from vendor status codes
to hub alarm states: DISARMED and DISARMED_BYPASS map to disarmed;
ARMED_STAY, ARMED_STAY_INSTANT and ARMED_STAY_INSTANT_BYPASS to armed-home;
ARMED_STAY_NIGHT to armed-night; ARMED_AWAY, ARMED_AWAY_BYPASS,
ARMED_AWAY_INSTANT and ARMED_AWAY_INSTANT_BYPASS to armed-away;
ARMED_CUSTOM_BYPASS to armed-custom-bypass; ARMING to arming; DISARMING to
disarming; ALARMING, ALARMING_FIRE_SMOKE and ALARMING_CARBON_MONOXIDE to
triggered with the corresponding `triggered_source` attribute. -/
theorem totalconnect_status_lookup :
    TotalConnectAlarm.update .DISARMED = ⟨some .disarmed, none⟩ ∧
    TotalConnectAlarm.update .DISARMED_BYPASS = ⟨some .disarmed, none⟩ ∧
    TotalConnectAlarm.update .ARMED_STAY = ⟨some .armedHome, none⟩ ∧
    TotalConnectAlarm.update .ARMED_STAY_INSTANT = ⟨some .armedHome, none⟩ ∧
    TotalConnectAlarm.update .ARMED_STAY_INSTANT_BYPASS = ⟨some .armedHome, none⟩ ∧
    TotalConnectAlarm.update .ARMED_STAY_NIGHT = ⟨some .armedNight, none⟩ ∧
    TotalConnectAlarm.update .ARMED_AWAY = ⟨some .armedAway, none⟩ ∧
    TotalConnectAlarm.update .ARMED_AWAY_BYPASS = ⟨some .armedAway, none⟩ ∧
    TotalConnectAlarm.update .ARMED_AWAY_INSTANT = ⟨some .armedAway, none⟩ ∧
    TotalConnectAlarm.update .ARMED_AWAY_INSTANT_BYPASS = ⟨some .armedAway, none⟩ ∧
    TotalConnectAlarm.update .ARMED_CUSTOM_BYPASS = ⟨some .armedCustomBypass, none⟩ ∧
    TotalConnectAlarm.update .ARMING = ⟨some .arming, none⟩ ∧
    TotalConnectAlarm.update .DISARMING = ⟨some .disarming, none⟩ ∧
    TotalConnectAlarm.update .ALARMING = ⟨some .triggered, some "Police/Medical"⟩ ∧
    TotalConnectAlarm.update .ALARMING_FIRE_SMOKE = ⟨some .triggered, some "Fire/Smoke"⟩ ∧
    TotalConnectAlarm.update .ALARMING_CARBON_MONOXIDE =
      ⟨some .triggered, some "Carbon Monoxide"⟩ :=
  ⟨rfl, rfl, rfl, rfl, rfl, rfl, rfl, rfl, rfl, rfl, rfl, rfl, rfl, rfl, rfl, rfl⟩

/-- C6: `HeosMediaPlayer.state` maps the vendor play state by a fixed
lookup: PLAY_STATE_PLAY to the playing state, PLAY_STATE_STOP to idle, and
PLAY_STATE_PAUSE to paused. -/
theorem heos_play_state_lookup :
    HeosMediaPlayer.state .play = Except.ok STATE_PLAYING ∧
    HeosMediaPlayer.state .stop = Except.ok STATE_IDLE ∧
    HeosMediaPlayer.state .pause = Except.ok STATE_PAUSED :=
  ⟨rfl, rfl, rfl⟩

/-- C1 counterexample: `HeosMediaPlayer.state` with a vendor play state
outside {play, stop, pause} does NOT yield an unknown state — the dict
subscript raises `KeyError` (embedded as `Except.error`), refuting the
claim that no adapter raises on an unknown vendor status code. -/
theorem heos_unknown_play_state_raises :
    HeosMediaPlayer.state (.other "transitioning") = Except.error PyError.keyError := rfl

/-- C1 amended: `TotalConnectAlarm.update` with an unrecognized armed status
logs it and sets the state to `None`, and
`RachioControllerOnlineBinarySensor._poll_update` with a status that is
neither online nor offline logs it and yields `None`; but
`HeosMediaPlayer.state` with a vendor play state outside
{play, stop, pause} raises `KeyError` rather than yielding an unknown
state. -/
theorem unknown_vendor_status_mapping :
    (∀ n, TotalConnectAlarm.update (.unknownCode n) = ⟨none, none⟩) ∧
    (∀ st, st ≠ STATUS_ONLINE → st ≠ STATUS_OFFLINE →
      RachioControllerOnlineBinarySensor.poll_update st = none) ∧
    (∀ p, p ≠ PlayState.play → p ≠ PlayState.stop → p ≠ PlayState.pause →
      HeosMediaPlayer.state p = Except.error PyError.keyError) := by
  refine ⟨fun n => rfl, fun st h1 h2 => ?_, fun p h1 h2 h3 => ?_⟩
  · simp [RachioControllerOnlineBinarySensor.poll_update, h1, h2]
  · cases p with
    | play => exact absurd rfl h1
    | stop => exact absurd rfl h2
    | pause => exact absurd rfl h3
    | other s => rfl

/-- C1 witness: the amended mapping at concrete unknown codes. -/
theorem unknown_vendor_status_mapping_witness :
    TotalConnectAlarm.update (.unknownCode 99) = ⟨none, none⟩ ∧
    RachioControllerOnlineBinarySensor.poll_update "SLEEPING" = none ∧
    HeosMediaPlayer.state (.other "unknown") = Except.error PyError.keyError :=
  ⟨unknown_vendor_status_mapping.1 99,
   unknown_vendor_status_mapping.2.1 "SLEEPING" (by decide) (by decide),
   unknown_vendor_status_mapping.2.2 (.other "unknown") (by simp) (by simp) (by simp)⟩

/-- C3 counterexample: `TeslaLock.async_lock` has no exception handler
around `await self.tesla_device.lock()`, so a vendor SDK error raised by
the vendor call propagates out of the command method, refuting the claim
that every adapter command method catches vendor errors at the
command-invocation boundary. -/
theorem tesla_lock_error_propagates :
    TeslaLock.async_lock (Except.error (TeslaRaised.vendorException "HTTPError")) =
      Except.error (TeslaRaised.vendorException "HTTPError") := rfl

/-- C3 amended: the HEOS command methods are wrapped by `log_command_error`,
which catches and logs the vendor SDK errors (command failure, timeout,
connection error) so they do not propagate; but the Tesla lock and unlock
commands and the TotalConnect arm and disarm commands invoke the vendor SDK
with no handler, so vendor exceptions propagate out of those methods
unchanged. -/
theorem command_error_handling_boundary :
    log_command_error (Except.error HeosRaised.commandError) = Except.ok () ∧
    log_command_error (Except.error HeosRaised.timeoutError) = Except.ok () ∧
    log_command_error (Except.error HeosRaised.connectionError) = Except.ok () ∧
    log_command_error (Except.ok ()) = Except.ok () ∧
    (∀ r, TeslaLock.async_lock r = r) ∧
    (∀ r, TeslaLock.async_unlock r = r) ∧
    (∀ r, TotalConnectAlarm.alarm_disarm r = r) ∧
    (∀ r, TotalConnectAlarm.alarm_arm_home r = r) :=
  ⟨rfl, rfl, rfl, rfl, fun _ => rfl, fun _ => rfl, fun _ => rfl, fun _ => rfl⟩

/-- C4 counterexample: `ZwaveDimmer.value_changed` with the refresh-value
option configured and no refresh in flight constructs and starts a
`threading.Timer` — its own timer thread — refuting the claim that no
adapter in the repository spawns a thread of its own. -/
theorem zwave_dimmer_spawns_timer_thread :
    (ZwaveDimmer.value_changed true false).2 = RefreshAction.startTimerThread := rfl

/-- C4 amended: with the single exception of the Z-Wave light adapter, the
adapters run inside the framework event loop; `ZwaveDimmer.value_changed`
spawns a `threading.Timer` thread exactly when the refresh-value option is
configured and no delayed refresh is already in flight, and otherwise falls
through to the framework's `value_changed`. -/
theorem zwave_dimmer_timer_spawn_condition :
    ∀ refreshValue refreshing : Bool,
      (ZwaveDimmer.value_changed refreshValue refreshing).2 = RefreshAction.startTimerThread ↔
        refreshValue = true ∧ refreshing = false := by
  decide

/-- C7: a failed update leaves the previously held device state stale:
`HuaweiLteSensor.async_update` with the data key missing only marks the
entity unavailable, leaving `_state` and `_unit` untouched, and
`GeonetnzQuakesEvent.async_update` leaves every internal field unchanged
when the feed manager has no entry for the external id. -/
theorem stale_state_on_failed_update :
    (∀ s f, (HuaweiLteSensor.async_update s none f).state = s.state ∧
      (HuaweiLteSensor.async_update s none f).unit = s.unit ∧
      (HuaweiLteSensor.async_update s none f).available = false) ∧
    (∀ i m s, GeonetnzQuakesEvent.async_update i m s none = s) :=
  ⟨fun _ _ => ⟨rfl, rfl, rfl⟩, fun _ _ _ => rfl⟩

/-- C10 counterexample: the guard is `speed is SPEED_OFF` — CPython object
identity — so an `"off"` string equal to but not identical with the module
constant (the normal service-call input, decoded from JSON/YAML and only
passed through `cv.string`) fails the guard and IS forwarded to
`set_speed` / `turn_on` as a speed to set, refuting the claim that the off
speed is never forwarded to the device. -/
theorem fan_service_off_string_forwarded :
    FanEntity.async_set_speed ⟨"off", false⟩ =
      FanEntityCall.addJobSetSpeed ⟨"off", false⟩ ∧
    FanEntity.async_turn_on (some ⟨"off", false⟩) =
      FanEntityCall.addJobTurnOn (some ⟨"off", false⟩) :=
  ⟨rfl, rfl⟩

/-- C10 amended: `FanEntity.async_set_speed` delegates to `async_turn_off`
instead of scheduling `set_speed`, and `FanEntity.async_turn_on` likewise
delegates to `async_turn_off` instead of scheduling `turn_on`, exactly when
the speed argument is the identical interned `SPEED_OFF` constant object;
any other speed object — including an equal-but-non-identical `"off"`
string — is forwarded unchanged to the device call (and a `turn_on` with no
speed is forwarded with `None`). -/
theorem fan_speed_off_identity_delegation :
    FanEntity.async_set_speed SPEED_OFF_ref = FanEntityCall.asyncTurnOff ∧
    FanEntity.async_turn_on (some SPEED_OFF_ref) = FanEntityCall.asyncTurnOff ∧
    (∀ s : PyStrRef, s.isSpeedOffConstant = false →
      FanEntity.async_set_speed s = FanEntityCall.addJobSetSpeed s) ∧
    (∀ s : PyStrRef, s.isSpeedOffConstant = false →
      FanEntity.async_turn_on (some s) = FanEntityCall.addJobTurnOn (some s)) ∧
    FanEntity.async_turn_on none = FanEntityCall.addJobTurnOn none := by
  refine ⟨rfl, rfl, fun s h => ?_, fun s h => ?_, rfl⟩
  · simp [FanEntity.async_set_speed, h]
  · simp [FanEntity.async_turn_on, h]

/-- C10 witness: the amended delegation at a concrete service-call string. -/
theorem fan_speed_off_identity_delegation_witness :
    (⟨"off", false⟩ : PyStrRef).isSpeedOffConstant = false ∧
    FanEntity.async_set_speed ⟨"off", false⟩ =
      FanEntityCall.addJobSetSpeed ⟨"off", false⟩ ∧
    FanEntity.async_turn_on (some ⟨"low", false⟩) =
      FanEntityCall.addJobTurnOn (some ⟨"low", false⟩) :=
  ⟨rfl, fan_speed_off_identity_delegation.2.2.1 ⟨"off", false⟩ rfl,
   fan_speed_off_identity_delegation.2.2.2.1 ⟨"low", false⟩ rfl⟩

/-- C8: for every brightness byte `b ≤ 255`, `byte_to_zwave_brightness b`
lies in the Z-Wave range 0..99 and equals 0 exactly when `b = 0` (every
positive byte maps to at least 1); conversely `brightness_state` returns
`(round(data / 99 * 255), STATE_ON)` exactly when the level is positive and
`(0, STATE_OFF)` otherwise. -/
theorem zwave_brightness_conversion (b : ℕ) (hb : b ≤ 255) :
    byte_to_zwave_brightness b ≤ 99 ∧
    (byte_to_zwave_brightness b = 0 ↔ b = 0) ∧
    (0 < b → 1 ≤ byte_to_zwave_brightness b) ∧
    (∀ d : ℕ, 0 < d → brightness_state d = (pyRoundDiv (d * 255) 99, STATE_ON)) ∧
    brightness_state 0 = (0, STATE_OFF) ∧
    (∀ d : ℕ, (brightness_state d).2 = STATE_ON ↔ 0 < d) := by
  have hdiv : b * 99 / 255 ≤ 99 := by
    calc b * 99 / 255 ≤ 255 * 99 / 255 := Nat.div_le_div_right (Nat.mul_le_mul_right _ hb)
      _ = 99 := by norm_num
  refine ⟨?_, ?_, ?_, ?_, rfl, ?_⟩
  · unfold byte_to_zwave_brightness
    split
    · exact max_le (by norm_num) hdiv
    · exact Nat.zero_le _
  · unfold byte_to_zwave_brightness
    split
    · next h =>
      have h1 : 1 ≤ max 1 (b * 99 / 255) := le_max_left _ _
      constructor
      · intro hc
        rw [hc] at h1
        exact absurd h1 (by norm_num)
      · intro hc
        exact absurd hc (Nat.ne_of_gt h)
    · next h => simp [Nat.eq_zero_of_not_pos h]
  · intro h
    unfold byte_to_zwave_brightness
    simp [h, le_max_left]
  · intro d hd
    unfold brightness_state
    simp [hd]
  · intro d
    unfold brightness_state
    split
    · next h => simp [h]
    · next h =>
      constructor
      · intro hc
        exact absurd hc (by simp [STATE_ON, STATE_OFF])
      · intro hc
        exact absurd hc h

/-- C8 witness: the conversion at the concrete byte 128. -/
theorem zwave_brightness_conversion_witness :
    128 ≤ 255 ∧ byte_to_zwave_brightness 128 ≤ 99 ∧
      (byte_to_zwave_brightness 128 = 0 ↔ (128 : ℕ) = 0) ∧
      brightness_state 50 = (pyRoundDiv (50 * 255) 99, STATE_ON) :=
  ⟨by norm_num, (zwave_brightness_conversion 128 (by norm_num)).1,
   (zwave_brightness_conversion 128 (by norm_num)).2.1,
   (zwave_brightness_conversion 128 (by norm_num)).2.2.2.1 50 (by norm_num)⟩

/-- C9: for a device that supports dimming duration and a non-negative
transition time `t`, `ZwaveDimmer._set_duration` writes `int(t)` when
`t ≤ 127`, `0xFE` when `t > 7620`, and `int(t / 60) + 0x7F` otherwise, so
the written value always lies in 0..0xFE; the factory-default 0xFF is
written only when no transition argument is supplied. -/
theorem zwave_dimming_duration (t : ℚ) (ht : 0 ≤ t) :
    (t ≤ 127 → ZwaveDimmer.set_duration true (some t) = .write ⌊t⌋.toNat) ∧
    (7620 < t → ZwaveDimmer.set_duration true (some t) = .write 0xFE) ∧
    (127 < t → t ≤ 7620 →
      ZwaveDimmer.set_duration true (some t) = .write (⌊t / 60⌋.toNat + 0x7F)) ∧
    (∃ d, d ≤ 0xFE ∧ ZwaveDimmer.set_duration true (some t) = .write d) ∧
    ZwaveDimmer.set_duration true none = .write 0xFF ∧
    ZwaveDimmer.set_duration true (some t) ≠ .write 0xFF := by
  have hex : ∃ d, d ≤ 0xFE ∧ ZwaveDimmer.set_duration true (some t) = .write d := by
    by_cases h1 : t ≤ 127
    · refine ⟨⌊t⌋.toNat, ?_, by simp [ZwaveDimmer.set_duration, h1]⟩
      have hf : ⌊t⌋ ≤ 127 := by
        rw [Int.floor_le_iff]
        push_cast
        linarith
      omega
    · by_cases h2 : t > 7620
      · exact ⟨0xFE, by norm_num, by simp [ZwaveDimmer.set_duration, h1, h2]⟩
      · refine ⟨⌊t / 60⌋.toNat + 0x7F, ?_, by simp [ZwaveDimmer.set_duration, h1, h2]⟩
        have hf : ⌊t / 60⌋ ≤ 127 := by
          rw [Int.floor_le_iff]
          rw [div_lt_iff (by norm_num : (0:ℚ) < 60)]
          push_cast
          linarith [not_lt.mp h2]
        omega
  refine ⟨fun h1 => by simp [ZwaveDimmer.set_duration, h1], ?_, ?_, hex, rfl, ?_⟩
  · intro h2
    have h1 : ¬ t ≤ 127 := by linarith
    simp [ZwaveDimmer.set_duration, h1, h2]
  · intro h1 h2
    simp [ZwaveDimmer.set_duration, not_le.mpr h1, not_lt.mpr h2]
  · obtain ⟨d, hd, he⟩ := hex
    rw [he]
    intro hc
    have : d = 0xFF := by injection hc
    omega

/-- C9 witness: the duration written for the concrete transitions 42 s and
300 s. -/
theorem zwave_dimming_duration_witness :
    (0 : ℚ) ≤ 42 ∧
      ZwaveDimmer.set_duration true (some 42) = .write (⌊(42 : ℚ)⌋.toNat) ∧
      ZwaveDimmer.set_duration true (some 300) = .write (⌊(300 : ℚ) / 60⌋.toNat + 0x7F) :=
  ⟨by norm_num, (zwave_dimming_duration 42 (by norm_num)).1 (by norm_num),
   (zwave_dimming_duration 300 (by norm_num)).2.2.1 (by norm_num) (by norm_num)⟩

/-- C2 counterexample: two sensors of the same physical device share the
serial, hence the battery unique id.  Both start without a battery attribute
and get trackers; when the first reports a battery, its tracker fires, the
battery entity is added and its tracker is removed.  When the second then
first reports a battery, its tracker fires and re-dispatches, but because
the unique id is already in the `batteries` set nothing happens: no entity
is added for it and — contrary to the claim — its tracker is NOT removed
from the handler. -/
theorem deconz_sibling_tracker_not_removed :
    (async_add_sensor false ⟨[], [], [], [], []⟩
        [⟨1, false, false, false, false, none, "00:aa"⟩,
         ⟨2, false, false, false, false, none, "00:aa"⟩] true).trackers = [1, 2] ∧
    (DeconzSensorStateTracker.async_update_callback false
        (async_add_sensor false ⟨[], [], [], [], []⟩
          [⟨1, false, false, false, false, none, "00:aa"⟩,
           ⟨2, false, false, false, false, none, "00:aa"⟩] true)
        ⟨1, false, false, false, false, some 80, "00:aa"⟩ true) =
      ⟨["00:aa-battery"], [2], [], [1, 2], ["00:aa-battery"]⟩ ∧
    (DeconzSensorStateTracker.async_update_callback false
        ⟨["00:aa-battery"], [2], [], [1, 2], ["00:aa-battery"]⟩
        ⟨2, false, false, false, false, some 80, "00:aa"⟩ true) =
      ⟨["00:aa-battery"], [2], [], [1, 2], ["00:aa-battery"]⟩ := by
  refine ⟨?_, ?_, ?_⟩ <;> rfl

/-- C2 amended: for every deCONZ sensor processed by `async_add_sensor`
without a battery attribute a tracker is registered; when the sensor first
reports a battery, the tracker's callback re-dispatches it with `new=False`
and, provided its unique id is not already in the `batteries` set, exactly
one `DeconzBattery` entity is added, the unique id is recorded (so at most
one battery entity per unique id ever exists) and the sensor's tracker is
removed from the handler, a further dispatch for the same sensor changing
nothing.  If, however, a sibling sensor sharing the serial has already
produced the battery entity, the re-dispatch adds no entity and leaves the
tracker in place. -/
theorem deconz_battery_tracker_lifecycle (allowClip : Bool) (st : DeconzPlatformState)
    (s : DeconzSensor) (b : ℕ) (hs : s.battery = none) (hb : b ≠ 0)
    (hfresh : DeconzBattery.unique_id s ∉ st.batteries) :
    (∀ new, (async_add_one_sensor allowClip st s new).trackers = st.trackers ++ [s.id]) ∧
    (DeconzSensorStateTracker.async_update_callback allowClip st
        { s with battery := some b } true =
      { st with
        batteries := DeconzBattery.unique_id s :: st.batteries
        batteryEntities := st.batteryEntities ++ [DeconzBattery.unique_id s]
        trackers := st.trackers.erase s.id }) ∧
    (DeconzSensorStateTracker.async_update_callback allowClip
        { st with
          batteries := DeconzBattery.unique_id s :: st.batteries
          batteryEntities := st.batteryEntities ++ [DeconzBattery.unique_id s]
          trackers := st.trackers.erase s.id }
        { s with battery := some b } true =
      { st with
        batteries := DeconzBattery.unique_id s :: st.batteries
        batteryEntities := st.batteryEntities ++ [DeconzBattery.unique_id s]
        trackers := st.trackers.erase s.id }) := by
  have hptb : pyTruthy (some b) = true := by simp [pyTruthy, hb]
  have huid : DeconzBattery.unique_id { s with battery := some b } =
      DeconzBattery.unique_id s := rfl
  refine ⟨fun new => ?_, ?_, ?_⟩
  · have hpt : pyTruthy s.battery = false := by rw [hs]; rfl
    simp only [async_add_one_sensor, hpt]
    simp only [Bool.false_eq_true, if_false]
    split
    · split <;> rfl
    · split <;> rfl
  · simp only [DeconzSensorStateTracker.async_update_callback, async_add_sensor,
      List.foldl_cons, List.foldl_nil, if_true]
    simp [async_add_one_sensor, hptb, hfresh, huid]
  · simp only [DeconzSensorStateTracker.async_update_callback, async_add_sensor,
      List.foldl_cons, List.foldl_nil, if_true]
    simp [async_add_one_sensor, hptb, huid]

/-- C2 witness: the amended lifecycle at a concrete sensor. -/
theorem deconz_battery_tracker_lifecycle_witness :
    (⟨1, false, false, false, false, none, "00:11"⟩ : DeconzSensor).battery = none ∧
    (async_add_one_sensor false ⟨[], [], [], [], []⟩
        ⟨1, false, false, false, false, none, "00:11"⟩ true).trackers = [] ++ [1] ∧
    DeconzSensorStateTracker.async_update_callback false ⟨[], [], [], [], []⟩
        ⟨1, false, false, false, false, some 59, "00:11"⟩ true =
      ⟨["00:11-battery"], List.erase [] 1, [], [], ["00:11-battery"]⟩ := by
  have h := deconz_battery_tracker_lifecycle false ⟨[], [], [], [], []⟩
    ⟨1, false, false, false, false, none, "00:11"⟩ 59 rfl (by norm_num)
    (List.not_mem_nil _)
  exact ⟨rfl, h.1 true, h.2.1⟩

end HomeAssistant
